import Mathlib

/-!
Shallow embedding of the outage-tracking core of `src/Downtime-v2.py`
(class `NetworkMonitor` plus the driver round `perform_connectivity_test`).
Timestamps and durations are rationals counting seconds; every
`datetime.now()` reading taken during one operation is modelled as that
operation's explicit `now` argument.  File/console logging carries no
monitor state, so `_log_event` is reflected only as the ordered list of
event types each operation emits.
-/

/-- Event types written by `_log_event` during `record_check`,
`_transition_to_offline`, `_transition_to_online` and `generate_report`.
`MONITOR_START` occurs once in `__init__` and never again, so it is not
modelled. -/
inductive EventType where
  | success
  | failure
  | outageStart
  | outageEnd
deriving Repr, DecidableEq

/-- Mirrors the constant `FAILURE_THRESHOLD = 3` of src/Downtime-v2.py. -/
def FAILURE_THRESHOLD : Nat := 3

/-- Mirrors `PING_TARGETS` of src/Downtime-v2.py. -/
def PING_TARGETS : List String := ["8.8.8.8", "1.1.1.1", "208.67.222.222"]

/-- Mirrors `DNS_TEST_DOMAINS` of src/Downtime-v2.py. -/
def DNS_TEST_DOMAINS : List String := ["google.com", "cloudflare.com", "amazon.com"]

/-- One outage interval: the dict `{'start': …, 'end': …, 'duration': …}`
appended in `_transition_to_online`, or the same dict with `'ongoing': True`
appended in `generate_report`.  A missing `'ongoing'` key reads as falsy via
`outage.get('ongoing')`, so it is modelled as the Boolean `false`. -/
structure OutageRecord where
  start : ℚ
  endTime : ℚ
  duration : ℚ
  ongoing : Bool
deriving Repr, DecidableEq

/-- The mutable fields of a `NetworkMonitor` instance set in `__init__`
(lines 36–46), minus the log-file paths, which never influence the
tracked state. -/
structure MonitorState where
  startTime : ℚ
  isOnline : Bool
  currentOutageStart : Option ℚ
  consecutiveFailures : Nat
  totalChecks : Nat
  successfulChecks : Nat
  failedChecks : Nat
  outages : List OutageRecord
  responseTimes : List ℚ
deriving Repr, DecidableEq

/-- The state `NetworkMonitor.__init__` builds at `start_time = t0`. -/
def initState (t0 : ℚ) : MonitorState :=
  { startTime := t0
    isOnline := true
    currentOutageStart := none
    consecutiveFailures := 0
    totalChecks := 0
    successfulChecks := 0
    failedChecks := 0
    outages := []
    responseTimes := [] }

/-- Mirrors `NetworkMonitor._transition_to_offline`: flip to offline, stamp
the outage start with the current time, log `OUTAGE_START`. -/
def transition_to_offline (now : ℚ) (s : MonitorState) :
    MonitorState × List EventType :=
  ({ s with isOnline := false, currentOutageStart := some now },
   [EventType.outageStart])

/-- Mirrors `NetworkMonitor._transition_to_online`: close the open outage at
the current time with `duration = end - start`, append it to `outages`, clear
`current_outage_start`, log `OUTAGE_END`.  Returns `none` exactly where the
Python code would raise a `TypeError` (`outage_end - None` when
`current_outage_start` is `None`). -/
def transition_to_online (now : ℚ) (s : MonitorState) :
    Option (MonitorState × List EventType) :=
  match s.currentOutageStart with
  | some st =>
      some ({ s with
                isOnline := true
                outages := s.outages ++
                  [{ start := st, endTime := now, duration := now - st,
                     ongoing := false }]
                currentOutageStart := none },
            [EventType.outageEnd])
  | none => none

/-- Mirrors `NetworkMonitor.record_check`.  The `target`, `test_type` and
`details` parameters affect only log text, never monitor state, so they are
dropped.  The emitted events keep the source's order: on success an
`OUTAGE_END` (if any) is logged before `SUCCESS`; on failure `FAILURE` is
logged before a possible `OUTAGE_START`. -/
def record_check (success : Bool) (response_time : Option ℚ) (now : ℚ)
    (s : MonitorState) : Option (MonitorState × List EventType) :=
  let s := { s with totalChecks := s.totalChecks + 1 }
  if success then
    let s := { s with
      successfulChecks := s.successfulChecks + 1
      consecutiveFailures := 0
      responseTimes :=
        match response_time with
        | some rt => s.responseTimes ++ [rt]
        | none => s.responseTimes }
    if s.isOnline then
      some (s, [EventType.success])
    else
      match transition_to_online now s with
      | some (s', evs) => some (s', evs ++ [EventType.success])
      | none => none
  else
    let s := { s with
      failedChecks := s.failedChecks + 1
      consecutiveFailures := s.consecutiveFailures + 1 }
    if s.isOnline ∧ FAILURE_THRESHOLD ≤ s.consecutiveFailures then
      let p := transition_to_offline now s
      some (p.1, EventType.failure :: p.2)
    else
      some (s, [EventType.failure])

/-- Total recorded outage duration of a list of records:
`sum((o['duration'] for o in self.outages), timedelta())` as summed by
`generate_report`. -/
def sumDur (l : List OutageRecord) : ℚ :=
  (l.map OutageRecord.duration).sum

/-- Summary numbers `generate_report` computes before rendering
(lines 142–159 of src/Downtime-v2.py), together with the outage list the
report body iterates over. -/
structure Report where
  total_runtime : ℚ
  total_outage_time : ℚ
  total_uptime : ℚ
  uptime_percentage : ℚ
  avg_response_time : ℚ
  outages : List OutageRecord
deriving Repr, DecidableEq

/-- Mirrors the statistics portion of `NetworkMonitor.generate_report` at
`end_time = now`.  Note that the synthetic ongoing record is appended to the
monitor's own `self.outages` list (`self.outages.append({...})`, line 148),
so the returned first component is the mutated state the running process
keeps after the call. -/
def generate_report (now : ℚ) (s : MonitorState) : MonitorState × Report :=
  let total_runtime := now - s.startTime
  let s :=
    if s.isOnline = false then
      match s.currentOutageStart with
      | some st =>
          { s with outages := s.outages ++
              [{ start := st, endTime := now, duration := now - st,
                 ongoing := true }] }
      | none => s
    else s
  let total_outage_time := sumDur s.outages
  let total_uptime := total_runtime - total_outage_time
  let uptime_percentage :=
    if 0 < total_runtime then total_uptime / total_runtime * 100 else 0
  let avg_response_time :=
    if s.responseTimes = [] then 0
    else s.responseTimes.sum / (s.responseTimes.length : ℚ)
  (s, { total_runtime := total_runtime
        total_outage_time := total_outage_time
        total_uptime := total_uptime
        uptime_percentage := uptime_percentage
        avg_response_time := avg_response_time
        outages := s.outages })

/-- Mirrors the static method `NetworkMonitor._format_duration` on a whole
number of seconds (`int(td.total_seconds())`); `//` and `%` of Python are
floor division and floor modulus, i.e. `Int.fdiv` and `Int.fmod`. -/
def format_duration (total_seconds : Int) : String :=
  let hours := total_seconds.fdiv 3600
  let minutes := (total_seconds.fmod 3600).fdiv 60
  let seconds := total_seconds.fmod 60
  let parts : List String :=
    (if 0 < hours then [toString hours ++ "h"] else []) ++
    (if 0 < minutes then [toString minutes ++ "m"] else []) ++
    [toString seconds ++ "s"]
  String.intercalate " " parts

/-- One probe outcome fed to `record_check`: the success flag, the optional
latency sample, and the wall-clock time of the call. -/
structure Check where
  success : Bool
  responseTime : Option ℚ
  time : ℚ
deriving Repr, DecidableEq

/-- Folds a list of probe outcomes through `record_check`, collecting every
emitted event in order; the driver loop of src/Downtime-v2.py does exactly
this, one check at a time. -/
def run : List Check → MonitorState → Option (MonitorState × List EventType)
  | [], s => some (s, [])
  | c :: tr, s =>
      match record_check c.success c.responseTime c.time s with
      | none => none
      | some (s1, evs1) =>
          match run tr s1 with
          | none => none
          | some (s2, evs2) => some (s2, evs1 ++ evs2)

/-- The ping loop of `perform_connectivity_test` (lines 273–280): probe the
given targets in order, record each result, break on the first success.
`ping` is the oracle for `ping_host`, `clock k` the wall-clock time of the
`k`-th check of the round.  Returns the final state, the accumulated
`results` list, the emitted events, and the next check index. -/
def ping_round (ping : String → Bool × Option ℚ) (clock : Nat → ℚ) :
    List String → Nat → MonitorState →
    Option (MonitorState × List Bool × List EventType × Nat)
  | [], k, s => some (s, [], [], k)
  | target :: rest, k, s =>
      let r := ping target
      match record_check r.1 r.2 (clock k) s with
      | none => none
      | some (s1, evs1) =>
          if r.1 then some (s1, [r.1], evs1, k + 1)
          else
            match ping_round ping clock rest (k + 1) s1 with
            | none => none
            | some (s2, results, evs2, k2) =>
                some (s2, r.1 :: results, evs1 ++ evs2, k2)

/-- The DNS fallback loop of `perform_connectivity_test` (lines 283–290):
resolve the given domains in order with no latency sample, break on the
first success. -/
def dns_round (dnsTest : String → Bool) (clock : Nat → ℚ) :
    List String → Nat → MonitorState →
    Option (MonitorState × List Bool × List EventType × Nat)
  | [], k, s => some (s, [], [], k)
  | domain :: rest, k, s =>
      let ok := dnsTest domain
      match record_check ok none (clock k) s with
      | none => none
      | some (s1, evs1) =>
          if ok then some (s1, [ok], evs1, k + 1)
          else
            match dns_round dnsTest clock rest (k + 1) s1 with
            | none => none
            | some (s2, results, evs2, k2) =>
                some (s2, ok :: results, evs1 ++ evs2, k2)

/-- Mirrors `perform_connectivity_test`: ping every target in
`PING_TARGETS` until one succeeds, and only if every ping failed try the
first two `DNS_TEST_DOMAINS` until one resolves.  Returns the final state,
the value `any(results)`, the combined `results` list, and the events of the
whole round. -/
def perform_connectivity_test (ping : String → Bool × Option ℚ)
    (dnsTest : String → Bool) (clock : Nat → ℚ) (s : MonitorState) :
    Option (MonitorState × Bool × List Bool × List EventType) :=
  match ping_round ping clock PING_TARGETS 0 s with
  | none => none
  | some (s1, results, evs1, k) =>
      if results.any id then some (s1, true, results, evs1)
      else
        match dns_round dnsTest clock (DNS_TEST_DOMAINS.take 2) k s1 with
        | none => none
        | some (s2, results2, evs2, _) =>
            some (s2, (results ++ results2).any id, results ++ results2,
                  evs1 ++ evs2)

/-- Invariant of §3 of the spec: `current_outage_start` is set exactly when
the monitor is offline. -/
def StateInv (s : MonitorState) : Prop :=
  s.currentOutageStart.isSome = true ↔ s.isOnline = false

/-- Duration the currently open outage (if any) has accumulated by time
`t`. -/
def pendingOutage (t : ℚ) (s : MonitorState) : ℚ :=
  match s.currentOutageStart with
  | some st => t - st
  | none => 0

/-- Timing facts that hold of a monitor state once every check recorded so
far happened no later than `t`: the run started by `t`, closed outages have
nonnegative durations, the open outage (if any) started inside the run, and
closed plus pending outage time fits inside the elapsed runtime. -/
def StateBound (t : ℚ) (s : MonitorState) : Prop :=
  s.startTime ≤ t ∧
  (∀ r ∈ s.outages, 0 ≤ r.duration) ∧
  (∀ st, s.currentOutageStart = some st → s.startTime ≤ st ∧ st ≤ t) ∧
  sumDur s.outages + pendingOutage t s ≤ t - s.startTime

/-- The check times of a trace are nondecreasing and start no earlier than
`t` — exactly how the single-threaded driver loop produces them. -/
def ChronoTrace : ℚ → List Check → Prop
  | _, [] => True
  | t, c :: tr => t ≤ c.time ∧ ChronoTrace c.time tr

/-- The would-be outcome of pinging each configured target once, in the
configured order. -/
def pingOutcomes (ping : String → Bool × Option ℚ) : List Bool :=
  PING_TARGETS.map fun t => (ping t).1

/-- The would-be outcome of resolving each of the first two fallback DNS
domains, in order. -/
def dnsOutcomes (dnsTest : String → Bool) : List Bool :=
  (DNS_TEST_DOMAINS.take 2).map dnsTest

/-- The `results` list one round of `perform_connectivity_test` must
produce if it probes ping targets in order and short-circuits on the first
success, then falls back to (the first two) DNS domains, again in order and
short-circuiting, exactly when every ping target failed: the per-target
ping outcomes cut right after the first success, followed — only when all
pings failed — by the DNS outcomes cut right after the first success. -/
def roundResults (ping : String → Bool × Option ℚ)
    (dnsTest : String → Bool) : List Bool :=
  (pingOutcomes ping).take ((pingOutcomes ping).findIdx id + 1) ++
    (if (pingOutcomes ping).any id then []
     else (dnsOutcomes dnsTest).take
       ((dnsOutcomes dnsTest).findIdx id + 1))

/-- Evaluation of `record_check` on a success while online: counters move,
no transition. -/
theorem record_check_success_online (s : MonitorState) (rt : Option ℚ)
    (now : ℚ) (h : s.isOnline = true) :
    record_check true rt now s =
      some ({ s with
                totalChecks := s.totalChecks + 1
                successfulChecks := s.successfulChecks + 1
                consecutiveFailures := 0
                responseTimes :=
                  match rt with
                  | some r => s.responseTimes ++ [r]
                  | none => s.responseTimes },
            [EventType.success]) := by
  simp [record_check, h]

/-- Evaluation of `record_check` on a success while offline with a stamped
outage start: the outage closes. -/
theorem record_check_success_offline (s : MonitorState) (rt : Option ℚ)
    (now st : ℚ) (h : s.isOnline = false)
    (hc : s.currentOutageStart = some st) :
    record_check true rt now s =
      some ({ s with
                totalChecks := s.totalChecks + 1
                successfulChecks := s.successfulChecks + 1
                consecutiveFailures := 0
                responseTimes :=
                  match rt with
                  | some r => s.responseTimes ++ [r]
                  | none => s.responseTimes
                isOnline := true
                outages := s.outages ++
                  [{ start := st, endTime := now, duration := now - st,
                     ongoing := false }]
                currentOutageStart := none },
            [EventType.outageEnd, EventType.success]) := by
  simp [record_check, transition_to_online, h, hc]

/-- Evaluation of `record_check` on a success while offline with no stamped
outage start: the Python code raises (`none` in the embedding). -/
theorem record_check_success_stuck (s : MonitorState) (rt : Option ℚ)
    (now : ℚ) (h : s.isOnline = false) (hc : s.currentOutageStart = none) :
    record_check true rt now s = none := by
  simp [record_check, transition_to_online, h, hc]

/-- Evaluation of `record_check` on a failure while offline: counters move,
no transition (the gate requires `is_online`). -/
theorem record_check_failure_offline (s : MonitorState) (rt : Option ℚ)
    (now : ℚ) (h : s.isOnline = false) :
    record_check false rt now s =
      some ({ s with
                totalChecks := s.totalChecks + 1
                failedChecks := s.failedChecks + 1
                consecutiveFailures := s.consecutiveFailures + 1 },
            [EventType.failure]) := by
  simp [record_check, h]

/-- Evaluation of `record_check` on a failure while online, below the
threshold: counters move, no transition. -/
theorem record_check_failure_below (s : MonitorState) (rt : Option ℚ)
    (now : ℚ) (h : s.consecutiveFailures + 1 < FAILURE_THRESHOLD) :
    record_check false rt now s =
      some ({ s with
                totalChecks := s.totalChecks + 1
                failedChecks := s.failedChecks + 1
                consecutiveFailures := s.consecutiveFailures + 1 },
            [EventType.failure]) := by
  have hng : ¬ (s.isOnline = true ∧
      FAILURE_THRESHOLD ≤ s.consecutiveFailures + 1) := by
    rintro ⟨-, h2⟩
    exact absurd h (not_lt.mpr h2)
  simp [record_check, hng]

/-- Evaluation of `record_check` on a failure while online that reaches the
threshold: the monitor transitions offline. -/
theorem record_check_failure_threshold (s : MonitorState) (rt : Option ℚ)
    (now : ℚ) (h : s.isOnline = true)
    (h2 : FAILURE_THRESHOLD ≤ s.consecutiveFailures + 1) :
    record_check false rt now s =
      some ({ s with
                totalChecks := s.totalChecks + 1
                failedChecks := s.failedChecks + 1
                consecutiveFailures := s.consecutiveFailures + 1
                isOnline := false
                currentOutageStart := some now },
            [EventType.failure, EventType.outageStart]) := by
  simp [record_check, transition_to_offline, h, h2]

/-- Under the outage-start invariant, `record_check` always succeeds, keeps
the invariant, and bumps `total_checks` by one. -/
theorem record_check_total (b : Bool) (rt : Option ℚ) (now : ℚ)
    (s : MonitorState) (hs : StateInv s) :
    ∃ s' evs, record_check b rt now s = some (s', evs) ∧ StateInv s' ∧
      s'.totalChecks = s.totalChecks + 1 ∧ s'.startTime = s.startTime := by
  cases b with
  | false =>
    by_cases hon : s.isOnline = true
    · by_cases hth : FAILURE_THRESHOLD ≤ s.consecutiveFailures + 1
      · exact ⟨_, _, record_check_failure_threshold s rt now hon hth,
          by simp [StateInv], rfl, rfl⟩
      · exact ⟨_, _, record_check_failure_below s rt now (not_le.mp hth),
          by simpa [StateInv] using hs, rfl, rfl⟩
    · have hon' : s.isOnline = false := by simpa using hon
      exact ⟨_, _, record_check_failure_offline s rt now hon',
        by simpa [StateInv] using hs, rfl, rfl⟩
  | true =>
    by_cases hon : s.isOnline = true
    · exact ⟨_, _, record_check_success_online s rt now hon,
        by simpa [StateInv] using hs, rfl, rfl⟩
    · have hon' : s.isOnline = false := by simpa using hon
      obtain ⟨st, hc⟩ := Option.isSome_iff_exists.mp (hs.mpr hon')
      exact ⟨_, _, record_check_success_offline s rt now st hon' hc,
        by simp [StateInv], rfl, rfl⟩

/-- The outage-start invariant survives any successful `record_check`. -/
theorem record_check_some_StateInv {b : Bool} {rt : Option ℚ} {now : ℚ}
    {s s' : MonitorState} {evs : List EventType} (hs : StateInv s)
    (h : record_check b rt now s = some (s', evs)) : StateInv s' := by
  obtain ⟨s2, evs2, heq, hinv, -, -⟩ := record_check_total b rt now s hs
  rw [heq] at h
  obtain ⟨rfl, rfl⟩ := Prod.mk.inj (Option.some.inj h)
  exact hinv

/-- Whenever `record_check` returns, it has incremented `total_checks` by
one and exactly one of the success/failure counters by one. -/
theorem record_check_some_counters {b : Bool} {rt : Option ℚ} {now : ℚ}
    {s s' : MonitorState} {evs : List EventType}
    (h : record_check b rt now s = some (s', evs)) :
    s'.totalChecks = s.totalChecks + 1 ∧
    s'.successfulChecks + s'.failedChecks =
      s.successfulChecks + s.failedChecks + 1 ∧
    s'.startTime = s.startTime := by
  cases b with
  | false =>
    by_cases hon : s.isOnline = true
    · by_cases hth : FAILURE_THRESHOLD ≤ s.consecutiveFailures + 1
      · rw [record_check_failure_threshold s rt now hon hth] at h
        obtain ⟨rfl, rfl⟩ := Prod.mk.inj (Option.some.inj h)
        exact ⟨rfl, rfl, rfl⟩
      · rw [record_check_failure_below s rt now (not_le.mp hth)] at h
        obtain ⟨rfl, rfl⟩ := Prod.mk.inj (Option.some.inj h)
        exact ⟨rfl, rfl, rfl⟩
    · have hon' : s.isOnline = false := by simpa using hon
      rw [record_check_failure_offline s rt now hon'] at h
      obtain ⟨rfl, rfl⟩ := Prod.mk.inj (Option.some.inj h)
      exact ⟨rfl, rfl, rfl⟩
  | true =>
    by_cases hon : s.isOnline = true
    · rw [record_check_success_online s rt now hon] at h
      obtain ⟨rfl, rfl⟩ := Prod.mk.inj (Option.some.inj h)
      refine ⟨rfl, ?_, rfl⟩
      show s.successfulChecks + 1 + s.failedChecks =
        s.successfulChecks + s.failedChecks + 1
      omega
    · have hon' : s.isOnline = false := by simpa using hon
      cases hc : s.currentOutageStart with
      | none =>
          rw [record_check_success_stuck s rt now hon' hc] at h
          simp at h
      | some st =>
          rw [record_check_success_offline s rt now st hon' hc] at h
          obtain ⟨rfl, rfl⟩ := Prod.mk.inj (Option.some.inj h)
          refine ⟨rfl, ?_, rfl⟩
          show s.successfulChecks + 1 + s.failedChecks =
            s.successfulChecks + s.failedChecks + 1
          omega

/-- Timing bounds are monotone in the reference time. -/
theorem StateBound_mono {t t' : ℚ} {s : MonitorState} (htt : t ≤ t')
    (hb : StateBound t s) : StateBound t' s := by
  obtain ⟨h1, h2, h3, h4⟩ := hb
  refine ⟨h1.trans htt, h2,
    fun st hst => ⟨(h3 st hst).1, (h3 st hst).2.trans htt⟩, ?_⟩
  unfold pendingOutage at h4 ⊢
  cases hc : s.currentOutageStart with
  | none => rw [hc] at h4; simp at h4 ⊢; linarith
  | some st => rw [hc] at h4; simp at h4 ⊢; linarith

/-- The freshly initialised monitor satisfies the outage-start invariant. -/
theorem StateInv_init (t0 : ℚ) : StateInv (initState t0) := by
  simp [StateInv, initState]

/-- The freshly initialised monitor satisfies the timing bounds at its own
start time. -/
theorem StateBound_init (t0 : ℚ) : StateBound t0 (initState t0) := by
  refine ⟨le_refl t0, ?_, ?_, ?_⟩ <;>
    simp [initState, sumDur, pendingOutage]

/-- A `record_check` performed at time `now` keeps the timing bounds at
`now`. -/
theorem record_check_some_StateBound {b : Bool} {rt : Option ℚ} {now : ℚ}
    {s s' : MonitorState} {evs : List EventType} (hs : StateInv s)
    (hb : StateBound now s) (h : record_check b rt now s = some (s', evs)) :
    StateBound now s' := by
  obtain ⟨h1, h2, h3, h4⟩ := hb
  cases b with
  | false =>
    by_cases hon : s.isOnline = true
    · by_cases hth : FAILURE_THRESHOLD ≤ s.consecutiveFailures + 1
      · rw [record_check_failure_threshold s rt now hon hth] at h
        obtain ⟨rfl, rfl⟩ := Prod.mk.inj (Option.some.inj h)
        have hcos : s.currentOutageStart = none := by
          rcases hc : s.currentOutageStart with - | st
          · rfl
          · have := hs.mp (by simp [hc])
            rw [hon] at this
            exact absurd this (by simp)
        have hp : pendingOutage now s = 0 := by simp [pendingOutage, hcos]
        refine ⟨h1, h2, ?_, ?_⟩
        · intro st hst
          have : st = now := by
            simpa using hst.symm
          exact ⟨this ▸ h1, le_of_eq this⟩
        · show sumDur s.outages +
            pendingOutage now { s with
              totalChecks := s.totalChecks + 1
              failedChecks := s.failedChecks + 1
              consecutiveFailures := s.consecutiveFailures + 1
              isOnline := false
              currentOutageStart := some now } ≤ now - s.startTime
          have : pendingOutage now { s with
              totalChecks := s.totalChecks + 1
              failedChecks := s.failedChecks + 1
              consecutiveFailures := s.consecutiveFailures + 1
              isOnline := false
              currentOutageStart := some now } = 0 := by
            simp [pendingOutage]
          rw [this]
          rw [hp] at h4
          linarith
      · rw [record_check_failure_below s rt now (not_le.mp hth)] at h
        obtain ⟨rfl, rfl⟩ := Prod.mk.inj (Option.some.inj h)
        exact ⟨h1, h2, h3, h4⟩
    · have hon' : s.isOnline = false := by simpa using hon
      rw [record_check_failure_offline s rt now hon'] at h
      obtain ⟨rfl, rfl⟩ := Prod.mk.inj (Option.some.inj h)
      exact ⟨h1, h2, h3, h4⟩
  | true =>
    by_cases hon : s.isOnline = true
    · rw [record_check_success_online s rt now hon] at h
      obtain ⟨rfl, rfl⟩ := Prod.mk.inj (Option.some.inj h)
      exact ⟨h1, h2, h3, h4⟩
    · have hon' : s.isOnline = false := by simpa using hon
      obtain ⟨st, hc⟩ := Option.isSome_iff_exists.mp (hs.mpr hon')
      rw [record_check_success_offline s rt now st hon' hc] at h
      obtain ⟨rfl, rfl⟩ := Prod.mk.inj (Option.some.inj h)
      have hstle : st ≤ now := (h3 st hc).2
      have hpend : pendingOutage now s = now - st := by
        simp [pendingOutage, hc]
      refine ⟨h1, ?_, ?_, ?_⟩
      · intro r hr
        rcases List.mem_append.mp hr with hr | hr
        · exact h2 r hr
        · have hrq : r = OutageRecord.mk st now (now - st) false := by
            simpa using hr
          rw [hrq]
          show (0:ℚ) ≤ now - st
          linarith
      · intro st' hst'
        simp at hst'
      · show sumDur (s.outages ++ [OutageRecord.mk st now (now - st) false]) +
            (0:ℚ) ≤ now - s.startTime
        have hsum :
            sumDur (s.outages ++ [OutageRecord.mk st now (now - st) false]) =
              sumDur s.outages + (now - st) := by
          simp [sumDur]
        rw [hsum]
        rw [hpend] at h4
        linarith

/-- The counter equality is preserved along any successful run. -/
theorem run_some_counters :
    ∀ (tr : List Check) (s s' : MonitorState) (evs : List EventType),
      run tr s = some (s', evs) →
      s.totalChecks = s.successfulChecks + s.failedChecks →
      s'.totalChecks = s'.successfulChecks + s'.failedChecks := by
  intro tr
  induction tr with
  | nil =>
      intro s s' evs h hinv
      simp only [run, Option.some.injEq, Prod.mk.injEq] at h
      obtain ⟨rfl, rfl⟩ := h
      exact hinv
  | cons c tr ih =>
      intro s s' evs h hinv
      simp only [run] at h
      cases hrc : record_check c.success c.responseTime c.time s with
      | none => simp [hrc] at h
      | some p =>
          obtain ⟨s1, evs1⟩ := p
          simp only [hrc] at h
          cases hrun : run tr s1 with
          | none => simp [hrun] at h
          | some q =>
              obtain ⟨s2, evs2⟩ := q
              simp only [hrun, Option.some.injEq, Prod.mk.injEq] at h
              obtain ⟨rfl, rfl⟩ := h
              have hc1 := record_check_some_counters hrc
              exact ih s1 _ _ hrun (by omega)

/-- Along a chronological trace starting from an invariant-respecting,
time-bounded state, a successful run preserves the invariant and the timing
bounds at any reference time past every check. -/
theorem run_chrono_bound :
    ∀ (tr : List Check) (s : MonitorState) (t T : ℚ),
      StateInv s → StateBound t s → ChronoTrace t tr →
      (∀ c ∈ tr, c.time ≤ T) → t ≤ T →
      ∀ s' evs, run tr s = some (s', evs) →
        StateInv s' ∧ StateBound T s' := by
  intro tr
  induction tr with
  | nil =>
      intro s t T hinv hb _ _ htT s' evs h
      simp only [run, Option.some.injEq, Prod.mk.injEq] at h
      obtain ⟨rfl, rfl⟩ := h
      exact ⟨hinv, StateBound_mono htT hb⟩
  | cons c tr ih =>
      intro s t T hinv hb hch hT htT s' evs h
      obtain ⟨htc, hch'⟩ := hch
      simp only [run] at h
      cases hrc : record_check c.success c.responseTime c.time s with
      | none => simp [hrc] at h
      | some p =>
          obtain ⟨s1, evs1⟩ := p
          simp only [hrc] at h
          cases hrun : run tr s1 with
          | none => simp [hrun] at h
          | some q =>
              obtain ⟨s2, evs2⟩ := q
              simp only [hrun, Option.some.injEq, Prod.mk.injEq] at h
              obtain ⟨rfl, rfl⟩ := h
              have hinv1 : StateInv s1 := record_check_some_StateInv hinv hrc
              have hb1 : StateBound c.time s1 :=
                record_check_some_StateBound hinv (StateBound_mono htc hb) hrc
              exact ih s1 c.time T hinv1 hb1 hch'
                (fun c' hc' => hT c' (List.mem_cons_of_mem _ hc'))
                (hT c (List.mem_cons_self _ _)) s2 evs2 hrun

/-- A failed check while offline only moves counters: no transition, no new
outage record, still offline. -/
theorem record_check_failure_offline_fields (rt : Option ℚ) (now : ℚ)
    (s : MonitorState) (h : s.isOnline = false) :
    ∃ s', record_check false rt now s = some (s', [EventType.failure]) ∧
      s'.isOnline = false ∧ s'.outages = s.outages ∧
      s'.currentOutageStart = s.currentOutageStart := by
  exact ⟨_, record_check_failure_offline s rt now h, h, rfl, rfl⟩

/-- Running any all-failure trace from an offline state emits only
`FAILURE` events and leaves the offline status and the outage list
untouched. -/
theorem run_failures_offline :
    ∀ (tr : List Check) (s : MonitorState),
      s.isOnline = false → (∀ c ∈ tr, c.success = false) →
      ∃ s', run tr s =
          some (s', List.replicate tr.length EventType.failure) ∧
        s'.isOnline = false ∧ s'.outages = s.outages := by
  intro tr
  induction tr with
  | nil =>
      intro s hoff _
      exact ⟨s, by simp [run], hoff, rfl⟩
  | cons c tr ih =>
      intro s hoff hall
      have hc : c.success = false := hall c (List.mem_cons_self _ _)
      obtain ⟨s1, hrc, hoff1, hout1, -⟩ :=
        record_check_failure_offline_fields c.responseTime c.time s hoff
      obtain ⟨s2, hrun, hoff2, hout2⟩ :=
        ih s1 hoff1 (fun c' hc' => hall c' (List.mem_cons_of_mem _ hc'))
      refine ⟨s2, ?_, hoff2, hout2.trans hout1⟩
      rw [← hc] at hrc
      simp only [run, hrc, hrun, List.length_cons, List.replicate_succ]
      rfl

/-- Appending one record adds its duration to the total. -/
theorem sumDur_append_singleton (l : List OutageRecord) (r : OutageRecord) :
    sumDur (l ++ [r]) = sumDur l + r.duration := by
  simp [sumDur]

/-- A list of nonnegative durations sums to a nonnegative total. -/
theorem sumDur_nonneg {l : List OutageRecord}
    (h : ∀ r ∈ l, 0 ≤ r.duration) : 0 ≤ sumDur l := by
  unfold sumDur
  apply List.sum_nonneg
  intro x hx
  obtain ⟨r, hr, rfl⟩ := List.mem_map.mp hx
  exact h r hr

/-- The uptime-percentage formula stays inside `[0, 100]` whenever the
outage total is between `0` and the positive runtime. -/
theorem pct_bounds {rt od : ℚ} (hrt : 0 < rt) (h0 : 0 ≤ od)
    (hle : od ≤ rt) :
    0 ≤ (rt - od) / rt * 100 ∧ (rt - od) / rt * 100 ≤ 100 := by
  constructor
  · exact mul_nonneg
      (div_nonneg (by linarith) hrt.le) (by norm_num)
  · have hdiv : (rt - od) / rt ≤ 1 := (div_le_one hrt).mpr (by linarith)
    have hmul := mul_le_mul_of_nonneg_right hdiv
      (by norm_num : (0:ℚ) ≤ 100)
    simpa using hmul

/-- Report-time statistics bounds: for an invariant-respecting state whose
timing bounds hold at the (strictly later than start) report time, the
computed uptime percentage lies in `[0, 100]`, and it is exactly `100` when
the reported outage list is empty. -/
theorem generate_report_bounds {now : ℚ} {s : MonitorState}
    (hinv : StateInv s) (hb : StateBound now s)
    (hpos : 0 < now - s.startTime) :
    0 ≤ ((generate_report now s).2).uptime_percentage ∧
    ((generate_report now s).2).uptime_percentage ≤ 100 ∧
    (((generate_report now s).2).outages = [] →
      ((generate_report now s).2).uptime_percentage = 100) := by
  obtain ⟨h1, h2, h3, h4⟩ := hb
  have hsum0 : 0 ≤ sumDur s.outages := sumDur_nonneg h2
  cases hon : s.isOnline with
  | true =>
      have hcos : s.currentOutageStart = none := by
        rcases hcs : s.currentOutageStart with - | st
        · rfl
        · have := hinv.mp (by simp [hcs])
          rw [hon] at this
          exact absurd this (by simp)
      have hpend : pendingOutage now s = 0 := by simp [pendingOutage, hcos]
      rw [hpend] at h4
      have hle : sumDur s.outages ≤ now - s.startTime := by linarith
      have hrep : ((generate_report now s).2).uptime_percentage =
          (now - s.startTime - sumDur s.outages) / (now - s.startTime) *
            100 := by
        simp [generate_report, hon, hpos]
      have hout : ((generate_report now s).2).outages = s.outages := by
        simp [generate_report, hon]
      obtain ⟨hlow, hhigh⟩ := pct_bounds hpos hsum0 hle
      refine ⟨by rw [hrep]; exact hlow, by rw [hrep]; exact hhigh, ?_⟩
      intro hempty
      rw [hout] at hempty
      rw [hrep, hempty]
      have hne : now - s.startTime ≠ 0 := ne_of_gt hpos
      rw [sumDur]
      simp [div_self hne]
  | false =>
      obtain ⟨st, hcs⟩ := Option.isSome_iff_exists.mp (hinv.mpr hon)
      have hstle : st ≤ now := (h3 st hcs).2
      have hpend : pendingOutage now s = now - st := by
        simp [pendingOutage, hcs]
      rw [hpend] at h4
      have hod0 : 0 ≤ sumDur s.outages + (now - st) := by linarith
      have hodle : sumDur s.outages + (now - st) ≤ now - s.startTime := h4
      have hrep : ((generate_report now s).2).uptime_percentage =
          (now - s.startTime - (sumDur s.outages + (now - st))) /
            (now - s.startTime) * 100 := by
        simp [generate_report, hon, hcs, hpos, sumDur_append_singleton]
      have hout : ((generate_report now s).2).outages =
          s.outages ++ [OutageRecord.mk st now (now - st) true] := by
        simp [generate_report, hon, hcs]
      obtain ⟨hlow, hhigh⟩ := pct_bounds hpos hod0 hodle
      refine ⟨by rw [hrep]; exact hlow, by rw [hrep]; exact hhigh, ?_⟩
      intro hempty
      rw [hout] at hempty
      simp at hempty

/-- The DNS loop is the ping loop run with an oracle that never reports a
latency. -/
theorem dns_round_eq_ping_round (dnsTest : String → Bool)
    (clock : Nat → ℚ) :
    ∀ (ds : List String) (k : Nat) (s : MonitorState),
      dns_round dnsTest clock ds k s =
        ping_round (fun d => (dnsTest d, none)) clock ds k s := by
  intro ds
  induction ds with
  | nil => intro k s; rfl
  | cons d ds ih =>
      intro k s
      simp only [dns_round, ping_round]
      cases record_check (dnsTest d) none (clock k) s with
      | none => rfl
      | some p =>
          cases dnsTest d with
          | true => rfl
          | false => simp only [ih]

/-- The prefix of per-target outcomes kept by the short-circuiting loop has
a success in it exactly when the whole outcome list does. -/
theorem take_findIdx_any (l : List Bool) :
    (l.take (l.findIdx id + 1)).any id = l.any id := by
  induction l with
  | nil => rfl
  | cons a l ih =>
      cases a with
      | true => simp [List.findIdx_cons]
      | false => simpa [List.findIdx_cons] using ih

/-- Characterisation of the short-circuiting probe loop: starting from an
invariant-respecting state it always completes, records one check per
probed target, and its `results` list is exactly the per-target outcome
list cut right after the first success (the whole list when every probe
fails). -/
theorem ping_round_spec (ping : String → Bool × Option ℚ)
    (clock : Nat → ℚ) :
    ∀ (targets : List String) (k : Nat) (s : MonitorState), StateInv s →
      ∃ s' evs k',
        ping_round ping clock targets k s =
          some (s',
            (targets.map fun t => (ping t).1).take
              ((targets.map fun t => (ping t).1).findIdx id + 1),
            evs, k') ∧
        StateInv s' ∧
        s'.totalChecks = s.totalChecks +
          ((targets.map fun t => (ping t).1).take
            ((targets.map fun t => (ping t).1).findIdx id + 1)).length := by
  intro targets
  induction targets with
  | nil =>
      intro k s hs
      exact ⟨s, [], k, by simp [ping_round], hs, by simp⟩
  | cons t ts ih =>
      intro k s hs
      obtain ⟨s1, evs1, hrc, hinv1, htc1, -⟩ :=
        record_check_total (ping t).1 (ping t).2 (clock k) s hs
      cases hb : (ping t).1 with
      | true =>
          rw [hb] at hrc
          refine ⟨s1, evs1, k + 1, ?_, hinv1, ?_⟩
          · simp [ping_round, hb, hrc, List.findIdx_cons]
          · simp [hb, List.findIdx_cons, htc1]
      | false =>
          rw [hb] at hrc
          obtain ⟨s2, evs2, k2, hrec, hinv2, htc2⟩ := ih (k + 1) s1 hinv1
          refine ⟨s2, evs1 ++ evs2, k2, ?_, hinv2, ?_⟩
          · simp [ping_round, hb, hrc, hrec, List.findIdx_cons,
              List.take_succ_cons]
          · simp only [List.map_cons, hb, List.findIdx_cons, id_eq,
              cond_false, List.take_succ_cons, List.length_cons]
            omega

/-- `record_check` never changes the monitor's start time, hence neither
does a whole run. -/
theorem run_some_startTime :
    ∀ (tr : List Check) (s s' : MonitorState) (evs : List EventType),
      run tr s = some (s', evs) → s'.startTime = s.startTime := by
  intro tr
  induction tr with
  | nil =>
      intro s s' evs h
      simp only [run, Option.some.injEq, Prod.mk.injEq] at h
      obtain ⟨rfl, rfl⟩ := h
      rfl
  | cons c tr ih =>
      intro s s' evs h
      simp only [run] at h
      cases hrc : record_check c.success c.responseTime c.time s with
      | none => simp [hrc] at h
      | some p =>
          obtain ⟨s1, evs1⟩ := p
          simp only [hrc] at h
          cases hrun : run tr s1 with
          | none => simp [hrun] at h
          | some q =>
              obtain ⟨s2, evs2⟩ := q
              simp only [hrun, Option.some.injEq, Prod.mk.injEq] at h
              obtain ⟨rfl, rfl⟩ := h
              exact (ih s1 _ _ hrun).trans
                (record_check_some_counters hrc).2.2

/-- C5: for every sequence of probe results fed to the freshly initialised
monitor, `total_checks == successful_checks + failed_checks` holds after
each `record_check` (every prefix of calls is itself such a sequence). -/
theorem C5_counter_equality (t0 : ℚ) (tr : List Check) (s' : MonitorState)
    (evs : List EventType) (h : run tr (initState t0) = some (s', evs)) :
    s'.totalChecks = s'.successfulChecks + s'.failedChecks :=
  run_some_counters tr (initState t0) s' evs h rfl

/-- Witness for C5 on a concrete one-check run. -/
theorem C5_counter_equality_witness :
    run [Check.mk true (some 5) 1] (initState 0) =
      some (MonitorState.mk 0 true none 0 1 1 0 [] [5],
        [EventType.success]) ∧
    (MonitorState.mk 0 true none 0 1 1 0 [] [5]).totalChecks =
      (MonitorState.mk 0 true none 0 1 1 0 [] [5]).successfulChecks +
        (MonitorState.mk 0 true none 0 1 1 0 [] [5]).failedChecks :=
  ⟨rfl, C5_counter_equality 0 [Check.mk true (some 5) 1] _ _ rfl⟩

/-- C6: `current_outage_start` is set iff the monitor is offline — true of
the initial state, preserved by every `record_check`, and preserved by
`generate_report` (which appends a record but never touches `is_online` or
`current_outage_start`). -/
theorem C6_outage_start_iff_offline :
    (∀ t0 : ℚ, StateInv (initState t0)) ∧
    (∀ (b : Bool) (rt : Option ℚ) (now : ℚ) (s s' : MonitorState)
        (evs : List EventType), StateInv s →
        record_check b rt now s = some (s', evs) → StateInv s') ∧
    (∀ (now : ℚ) (s : MonitorState), StateInv s →
        StateInv (generate_report now s).1) := by
  refine ⟨StateInv_init, ?_, ?_⟩
  · intro b rt now s s' evs hs h
    exact record_check_some_StateInv hs h
  · intro now s hs
    by_cases hon : s.isOnline = false
    · rcases hcs : s.currentOutageStart with - | st
      · simp [generate_report, hon, hcs, StateInv] at hs
      · simp [generate_report, hon, hcs, StateInv]
    · simpa [generate_report, hon, StateInv] using hs

/-- Witness for C6 at concrete states: initialisation, one successful
check, and one report generation. -/
theorem C6_outage_start_iff_offline_witness :
    StateInv (initState 0) ∧
    StateInv (MonitorState.mk 0 true none 0 1 1 0 [] [5]) ∧
    StateInv (generate_report 1 (initState 0)).1 :=
  ⟨C6_outage_start_iff_offline.1 0,
   C6_outage_start_iff_offline.2.1 true (some 5) 1 (initState 0)
     (MonitorState.mk 0 true none 0 1 1 0 [] [5]) [EventType.success]
     (C6_outage_start_iff_offline.1 0) rfl,
   C6_outage_start_iff_offline.2.2 1 (initState 0)
     (C6_outage_start_iff_offline.1 0)⟩

/-- C9: report generation divides safely — the uptime percentage is defined
as `0` whenever the total runtime is nonpositive, and the average response
time is `0` on an empty latency list and the list's mean otherwise. -/
theorem C9_division_guards (now : ℚ) (s : MonitorState) :
    (now - s.startTime ≤ 0 →
      ((generate_report now s).2).uptime_percentage = 0) ∧
    (s.responseTimes = [] →
      ((generate_report now s).2).avg_response_time = 0) ∧
    (s.responseTimes ≠ [] →
      ((generate_report now s).2).avg_response_time =
        s.responseTimes.sum / (s.responseTimes.length : ℚ)) := by
  refine ⟨?_, ?_, ?_⟩
  · intro h
    have hng : ¬ (0 < now - s.startTime) := not_lt.mpr h
    by_cases hon : s.isOnline = false
    · rcases hcs : s.currentOutageStart with - | st <;>
        simp [generate_report, hon, hcs, hng]
    · simp [generate_report, hon, hng]
  · intro h
    by_cases hon : s.isOnline = false
    · rcases hcs : s.currentOutageStart with - | st <;>
        simp [generate_report, hon, hcs, h]
    · simp [generate_report, hon, h]
  · intro h
    by_cases hon : s.isOnline = false
    · rcases hcs : s.currentOutageStart with - | st <;>
        simp [generate_report, hon, hcs, h]
    · simp [generate_report, hon, h]

/-- Witness for C9: a report at a nonpositive runtime with no samples, and
a report over one latency sample. -/
theorem C9_division_guards_witness :
    ((0:ℚ) - (initState 1).startTime ≤ 0 ∧
      ((generate_report 0 (initState 1)).2).uptime_percentage = 0) ∧
    ((initState 1).responseTimes = [] ∧
      ((generate_report 0 (initState 1)).2).avg_response_time = 0) ∧
    ((MonitorState.mk 0 true none 0 1 1 0 [] [5]).responseTimes ≠ [] ∧
      ((generate_report 2
          (MonitorState.mk 0 true none 0 1 1 0 [] [5])).2).avg_response_time =
        (MonitorState.mk 0 true none 0 1 1 0 [] [5]).responseTimes.sum /
          (((MonitorState.mk 0 true none 0 1 1 0 [] [5]).responseTimes.length
            : ℕ) : ℚ)) :=
  ⟨⟨by norm_num [initState],
    (C9_division_guards 0 (initState 1)).1 (by norm_num [initState])⟩,
   ⟨rfl, (C9_division_guards 0 (initState 1)).2.1 rfl⟩,
   ⟨by simp,
    (C9_division_guards 2 (MonitorState.mk 0 true none 0 1 1 0 [] [5])).2.2
      (by simp)⟩⟩

/-- C10: for every non-negative whole-second duration, the formatter
renders compact `"Xh Ym Zs"`: the hours part appears iff hours are
positive, the minutes part iff minutes are positive, and the seconds part
always appears. -/
theorem C10_format_duration_shape (n : Int) (hn : 0 ≤ n) :
    format_duration n =
      (if 0 < n.fdiv 3600 then toString (n.fdiv 3600) ++ "h " else "") ++
      (if 0 < (n.fmod 3600).fdiv 60
        then toString ((n.fmod 3600).fdiv 60) ++ "m " else "") ++
      toString (n.fmod 60) ++ "s" := by
  have hh : ∀ x : String, "h" ++ (" " ++ x) = "h " ++ x := by
    intro x
    rw [← String.append_assoc]
    rfl
  have hm : ∀ x : String, "m" ++ (" " ++ x) = "m " ++ x := by
    intro x
    rw [← String.append_assoc]
    rfl
  unfold format_duration
  by_cases h1 : 0 < n.fdiv 3600 <;>
    by_cases h2 : 0 < (n.fmod 3600).fdiv 60 <;>
    simp only [h1, h2, if_true, if_false, List.singleton_append,
      List.cons_append, List.nil_append, if_pos, if_neg] <;>
    simp [String.intercalate, String.intercalate.go, String.append_assoc,
      hh, hm]

/-- Witness for C10 at 3725 seconds = 1h 2m 5s. -/
theorem C10_format_duration_shape_witness :
    (0:Int) ≤ 3725 ∧ format_duration 3725 = "1h 2m 5s" := by
  refine ⟨by decide, ?_⟩
  rw [C10_format_duration_shape 3725 (by decide)]
  decide

/-- C3: in any single `record_check` from an invariant-respecting state, an
offline→online transition (an `OUTAGE_END` event) occurs iff the state just
before the call was offline and the result is a success; and the record it
closes is appended to `outages` and satisfies `duration = end - start`
exactly. -/
theorem C3_offline_to_online_iff (s : MonitorState) (b : Bool)
    (rt : Option ℚ) (now : ℚ) (hs : StateInv s) :
    ∃ s' evs, record_check b rt now s = some (s', evs) ∧
      (EventType.outageEnd ∈ evs ↔ s.isOnline = false ∧ b = true) ∧
      (EventType.outageEnd ∈ evs →
        ∃ r, s'.outages = s.outages ++ [r] ∧
          r.duration = r.endTime - r.start) := by
  cases b with
  | true =>
    by_cases hon : s.isOnline = true
    · refine ⟨_, _, record_check_success_online s rt now hon, ?_, ?_⟩
      · simp [hon]
      · intro hmem
        simp at hmem
    · have hon' : s.isOnline = false := by simpa using hon
      obtain ⟨st, hc⟩ := Option.isSome_iff_exists.mp (hs.mpr hon')
      refine ⟨_, _, record_check_success_offline s rt now st hon' hc,
        ?_, ?_⟩
      · simp [hon']
      · intro hmem
        exact ⟨OutageRecord.mk st now (now - st) false, rfl, rfl⟩
  | false =>
    by_cases hon : s.isOnline = true
    · by_cases hth : FAILURE_THRESHOLD ≤ s.consecutiveFailures + 1
      · refine ⟨_, _, record_check_failure_threshold s rt now hon hth,
          ?_, ?_⟩
        · simp
        · intro hmem
          simp at hmem
      · refine ⟨_, _,
          record_check_failure_below s rt now (not_le.mp hth), ?_, ?_⟩
        · simp
        · intro hmem
          simp at hmem
    · have hon' : s.isOnline = false := by simpa using hon
      refine ⟨_, _, record_check_failure_offline s rt now hon', ?_, ?_⟩
      · simp
      · intro hmem
        simp at hmem

/-- Witness for C3: a success recorded while offline since time 3, checked
at time 10. -/
theorem C3_offline_to_online_iff_witness :
    StateInv (MonitorState.mk 0 false (some 3) 3 3 0 3 [] []) ∧
    (∃ s' evs,
      record_check true none 10
          (MonitorState.mk 0 false (some 3) 3 3 0 3 [] []) =
        some (s', evs) ∧
      (EventType.outageEnd ∈ evs ↔
        (MonitorState.mk 0 false (some 3) 3 3 0 3 [] []).isOnline = false ∧
          true = true) ∧
      (EventType.outageEnd ∈ evs →
        ∃ r, s'.outages =
            (MonitorState.mk 0 false (some 3) 3 3 0 3 [] []).outages ++
              [r] ∧
          r.duration = r.endTime - r.start)) :=
  ⟨by simp [StateInv],
   C3_offline_to_online_iff (MonitorState.mk 0 false (some 3) 3 3 0 3 [] [])
     true none 10 (by simp [StateInv])⟩

/-- C2: from an online state with no accumulated failures, two failures
followed by a success yield no transition and no outage record; and any
all-failure sequence of length at least three yields exactly one
`OUTAGE_START`, no `OUTAGE_END`, and no outage record until a subsequent
success. -/
theorem C2_threshold_behaviour :
    (∀ (s : MonitorState) (t1 t2 t3 : ℚ) (rt : Option ℚ),
      s.isOnline = true → s.consecutiveFailures = 0 →
      ∃ s', run [Check.mk false none t1, Check.mk false none t2,
          Check.mk true rt t3] s =
        some (s', [EventType.failure, EventType.failure,
          EventType.success]) ∧
        s'.outages = s.outages ∧ s'.isOnline = true) ∧
    (∀ (s : MonitorState) (tr : List Check),
      s.isOnline = true → s.consecutiveFailures = 0 →
      (∀ c ∈ tr, c.success = false) → 3 ≤ tr.length →
      ∃ s' evs, run tr s = some (s', evs) ∧
        evs.count EventType.outageStart = 1 ∧
        evs.count EventType.outageEnd = 0 ∧
        s'.isOnline = false ∧ s'.outages = s.outages) := by
  constructor
  · intro s t1 t2 t3 rt hon hcf
    refine ⟨{ s with
        totalChecks := s.totalChecks + 1 + 1 + 1
        successfulChecks := s.successfulChecks + 1
        failedChecks := s.failedChecks + 1 + 1
        consecutiveFailures := 0
        responseTimes :=
          match rt with
          | some r => s.responseTimes ++ [r]
          | none => s.responseTimes }, ?_, rfl, hon⟩
    have e1 : record_check false none t1 s =
        some ({ s with
          totalChecks := s.totalChecks + 1
          failedChecks := s.failedChecks + 1
          consecutiveFailures := s.consecutiveFailures + 1 },
          [EventType.failure]) :=
      record_check_failure_below s none t1 (by rw [hcf]; decide)
    have e2 : record_check false none t2
        { s with
          totalChecks := s.totalChecks + 1
          failedChecks := s.failedChecks + 1
          consecutiveFailures := s.consecutiveFailures + 1 } =
        some ({ s with
          totalChecks := s.totalChecks + 1 + 1
          failedChecks := s.failedChecks + 1 + 1
          consecutiveFailures := s.consecutiveFailures + 1 + 1 },
          [EventType.failure]) :=
      record_check_failure_below _ none t2
        (show s.consecutiveFailures + 1 + 1 < FAILURE_THRESHOLD by
          rw [hcf]; decide)
    have e3 : record_check true rt t3
        { s with
          totalChecks := s.totalChecks + 1 + 1
          failedChecks := s.failedChecks + 1 + 1
          consecutiveFailures := s.consecutiveFailures + 1 + 1 } =
        some ({ s with
          totalChecks := s.totalChecks + 1 + 1 + 1
          successfulChecks := s.successfulChecks + 1
          failedChecks := s.failedChecks + 1 + 1
          consecutiveFailures := 0
          responseTimes :=
            match rt with
            | some r => s.responseTimes ++ [r]
            | none => s.responseTimes },
          [EventType.success]) :=
      record_check_success_online _ rt t3 (show s.isOnline = true from hon)
    simp only [run, e1, e2, e3, List.append_nil, List.singleton_append]
  · intro s tr hon hcf hall hlen
    rcases tr with - | ⟨c1, tr⟩
    · simp at hlen
    rcases tr with - | ⟨c2, tr⟩
    · simp at hlen
    rcases tr with - | ⟨c3, rest⟩
    · simp at hlen
    have hc1 : c1.success = false := hall c1 (by simp)
    have hc2 : c2.success = false := hall c2 (by simp)
    have hc3 : c3.success = false := hall c3 (by simp)
    have e1 : record_check false c1.responseTime c1.time s =
        some ({ s with
          totalChecks := s.totalChecks + 1
          failedChecks := s.failedChecks + 1
          consecutiveFailures := s.consecutiveFailures + 1 },
          [EventType.failure]) :=
      record_check_failure_below s c1.responseTime c1.time
        (by rw [hcf]; decide)
    have e2 : record_check false c2.responseTime c2.time
        { s with
          totalChecks := s.totalChecks + 1
          failedChecks := s.failedChecks + 1
          consecutiveFailures := s.consecutiveFailures + 1 } =
        some ({ s with
          totalChecks := s.totalChecks + 1 + 1
          failedChecks := s.failedChecks + 1 + 1
          consecutiveFailures := s.consecutiveFailures + 1 + 1 },
          [EventType.failure]) :=
      record_check_failure_below _ c2.responseTime c2.time
        (show s.consecutiveFailures + 1 + 1 < FAILURE_THRESHOLD by
          rw [hcf]; decide)
    have e3 : record_check false c3.responseTime c3.time
        { s with
          totalChecks := s.totalChecks + 1 + 1
          failedChecks := s.failedChecks + 1 + 1
          consecutiveFailures := s.consecutiveFailures + 1 + 1 } =
        some ({ s with
          totalChecks := s.totalChecks + 1 + 1 + 1
          failedChecks := s.failedChecks + 1 + 1 + 1
          consecutiveFailures := s.consecutiveFailures + 1 + 1 + 1
          isOnline := false
          currentOutageStart := some c3.time },
          [EventType.failure, EventType.outageStart]) :=
      record_check_failure_threshold _ c3.responseTime c3.time
        (show s.isOnline = true from hon)
        (show FAILURE_THRESHOLD ≤ s.consecutiveFailures + 1 + 1 + 1 by
          rw [hcf]; decide)
    obtain ⟨s4, hrun4, hoff4, hout4⟩ := run_failures_offline rest
      { s with
        totalChecks := s.totalChecks + 1 + 1 + 1
        failedChecks := s.failedChecks + 1 + 1 + 1
        consecutiveFailures := s.consecutiveFailures + 1 + 1 + 1
        isOnline := false
        currentOutageStart := some c3.time }
      rfl (fun c hc => hall c (by simp [hc]))
    refine ⟨s4, EventType.failure :: EventType.failure ::
      EventType.failure :: EventType.outageStart ::
      List.replicate rest.length EventType.failure, ?_, ?_, ?_,
      hoff4, hout4⟩
    · simp only [run, hc1, hc2, hc3, e1, e2, e3, hrun4]
      rfl
    · simp [List.count_cons, List.count_replicate]
    · simp [List.count_cons, List.count_replicate]

/-- Witness for C2 on the fresh monitor: failure-failure-success, and three
straight failures. -/
theorem C2_threshold_behaviour_witness :
    ((initState 0).isOnline = true ∧
      (initState 0).consecutiveFailures = 0) ∧
    (∃ s', run [Check.mk false none 1, Check.mk false none 2,
        Check.mk true none 3] (initState 0) =
      some (s', [EventType.failure, EventType.failure,
        EventType.success]) ∧
      s'.outages = (initState 0).outages ∧ s'.isOnline = true) ∧
    (∃ s' evs, run [Check.mk false none 1, Check.mk false none 2,
        Check.mk false none 3] (initState 0) = some (s', evs) ∧
      evs.count EventType.outageStart = 1 ∧
      evs.count EventType.outageEnd = 0 ∧
      s'.isOnline = false ∧ s'.outages = (initState 0).outages) :=
  ⟨⟨rfl, rfl⟩,
   C2_threshold_behaviour.1 (initState 0) 1 2 3 none rfl rfl,
   C2_threshold_behaviour.2 (initState 0)
     [Check.mk false none 1, Check.mk false none 2, Check.mk false none 3]
     rfl rfl (by simp) (by simp)⟩

/-- C8: for every run of checks from the fresh monitor (chronological
check times, report taken at or after the last check) with positive total
runtime, the uptime percentage lies in `[0, 100]`, and it equals exactly
`100` when the report's outage list is empty. -/
theorem C8_uptime_percentage_bounds (t0 now : ℚ) (tr : List Check)
    (s' : MonitorState) (evs : List EventType)
    (hch : ChronoTrace t0 tr) (hT : ∀ c ∈ tr, c.time ≤ now)
    (ht0 : t0 ≤ now) (hrun : run tr (initState t0) = some (s', evs))
    (hpos : 0 < now - t0) :
    (0 ≤ ((generate_report now s').2).uptime_percentage ∧
      ((generate_report now s').2).uptime_percentage ≤ 100) ∧
    (((generate_report now s').2).outages = [] →
      ((generate_report now s').2).uptime_percentage = 100) := by
  obtain ⟨hinv, hb⟩ := run_chrono_bound tr (initState t0) t0 now
    (StateInv_init t0) (StateBound_init t0) hch hT ht0 s' evs hrun
  have hst : s'.startTime = t0 :=
    run_some_startTime tr (initState t0) s' evs hrun
  have hpos' : 0 < now - s'.startTime := by rw [hst]; exact hpos
  obtain ⟨h1, h2, h3⟩ := generate_report_bounds hinv hb hpos'
  exact ⟨⟨h1, h2⟩, h3⟩

/-- Witness for C8: the empty run reported at time 10. -/
theorem C8_uptime_percentage_bounds_witness :
    ChronoTrace 0 [] ∧ (0:ℚ) < 10 - 0 ∧
    ((0 ≤ ((generate_report 10 (initState 0)).2).uptime_percentage ∧
      ((generate_report 10 (initState 0)).2).uptime_percentage ≤ 100) ∧
    (((generate_report 10 (initState 0)).2).outages = [] →
      ((generate_report 10 (initState 0)).2).uptime_percentage = 100)) :=
  ⟨trivial, by norm_num,
   C8_uptime_percentage_bounds 0 10 [] (initState 0) [] trivial
     (by simp) (by norm_num) rfl (by norm_num)⟩

/-- Characterisation of the DNS fallback loop, via its equality with the
ping loop run on a latency-free oracle. -/
theorem dns_round_spec (dnsTest : String → Bool) (clock : Nat → ℚ) :
    ∀ (ds : List String) (k : Nat) (s : MonitorState), StateInv s →
      ∃ s' evs k',
        dns_round dnsTest clock ds k s =
          some (s',
            (ds.map dnsTest).take ((ds.map dnsTest).findIdx id + 1),
            evs, k') ∧
        StateInv s' ∧
        s'.totalChecks = s.totalChecks +
          ((ds.map dnsTest).take
            ((ds.map dnsTest).findIdx id + 1)).length := by
  intro ds k s hs
  obtain ⟨s', evs, k', h, hinv, htc⟩ :=
    ping_round_spec (fun d => (dnsTest d, none)) clock ds k s hs
  rw [dns_round_eq_ping_round]
  exact ⟨s', evs, k', h, hinv, htc⟩

/-- C7: one round of `perform_connectivity_test` probes the ping targets in
their configured order, stops at the first ping success, and tries the DNS
fallbacks (in order, short-circuiting) precisely when every ping target
failed — its `results` list is exactly `roundResults`, with one recorded
check per entry. -/
theorem C7_probe_ordering (ping : String → Bool × Option ℚ)
    (dnsTest : String → Bool) (clock : Nat → ℚ) (s : MonitorState)
    (hs : StateInv s) :
    ∃ s' ok evs,
      perform_connectivity_test ping dnsTest clock s =
        some (s', ok, roundResults ping dnsTest, evs) ∧
      s'.totalChecks = s.totalChecks +
        (roundResults ping dnsTest).length := by
  obtain ⟨s1, evs1, k1, hpr, hinv1, htc1⟩ :=
    ping_round_spec ping clock PING_TARGETS 0 s hs
  cases hany : (pingOutcomes ping).any id with
  | true =>
      have hTake : ((PING_TARGETS.map fun t => (ping t).1).take
          ((PING_TARGETS.map fun t => (ping t).1).findIdx id + 1)).any id =
            true := by
        rw [take_findIdx_any]
        simpa [pingOutcomes] using hany
      have hrr : roundResults ping dnsTest =
          (PING_TARGETS.map fun t => (ping t).1).take
            ((PING_TARGETS.map fun t => (ping t).1).findIdx id + 1) := by
        unfold roundResults
        rw [hany]
        simp [pingOutcomes]
      refine ⟨s1, true, evs1, ?_, ?_⟩
      · rw [hrr]
        simp [perform_connectivity_test, hpr, hTake]
      · rw [hrr]
        exact htc1
  | false =>
      obtain ⟨s2, evs2, k2, hdr, hinv2, htc2⟩ :=
        dns_round_spec dnsTest clock (DNS_TEST_DOMAINS.take 2) k1 s1 hinv1
      have hTake : ((PING_TARGETS.map fun t => (ping t).1).take
          ((PING_TARGETS.map fun t => (ping t).1).findIdx id + 1)).any id =
            false := by
        rw [take_findIdx_any]
        simpa [pingOutcomes] using hany
      have hrr : roundResults ping dnsTest =
          (PING_TARGETS.map fun t => (ping t).1).take
            ((PING_TARGETS.map fun t => (ping t).1).findIdx id + 1) ++
          ((DNS_TEST_DOMAINS.take 2).map dnsTest).take
            (((DNS_TEST_DOMAINS.take 2).map dnsTest).findIdx id + 1) := by
        unfold roundResults
        rw [hany]
        simp [pingOutcomes, dnsOutcomes]
      refine ⟨s2,
        ((PING_TARGETS.map fun t => (ping t).1).take
            ((PING_TARGETS.map fun t => (ping t).1).findIdx id + 1) ++
          ((DNS_TEST_DOMAINS.take 2).map dnsTest).take
            (((DNS_TEST_DOMAINS.take 2).map dnsTest).findIdx id + 1)).any
          id,
        evs1 ++ evs2, ?_, ?_⟩
      · rw [hrr]
        simp [perform_connectivity_test, hpr, hTake, hdr]
      · rw [hrr, htc2, htc1]
        simp [List.length_append]
        omega

/-- Witness for C7 with an always-succeeding ping oracle on the fresh
monitor. -/
theorem C7_probe_ordering_witness :
    StateInv (initState 0) ∧
    (∃ s' ok evs,
      perform_connectivity_test (fun _ => (true, none)) (fun _ => true)
          (fun k => (k : ℚ)) (initState 0) =
        some (s', ok,
          roundResults (fun _ => (true, none)) (fun _ => true), evs) ∧
      s'.totalChecks = (initState 0).totalChecks +
        (roundResults (fun _ => (true, none)) (fun _ => true)).length) :=
  ⟨by simp [StateInv, initState],
   C7_probe_ordering (fun _ => (true, none)) (fun _ => true)
     (fun k => (k : ℚ)) (initState 0) (by simp [StateInv, initState])⟩

/-- C4: from an online state with no accumulated failures, a round in which
all three ping targets fail reaches the threshold inside the ping loop, so
`OUTAGE_START` fires before any DNS check; if the first DNS fallback then
succeeds, `OUTAGE_END` follows in the same round, which appends exactly one
closed outage record spanning the third ping check to the DNS check. -/
theorem C4_round_transition_order (ping : String → Bool × Option ℚ)
    (dnsTest : String → Bool) (clock : Nat → ℚ) (s : MonitorState)
    (hon : s.isOnline = true) (hcf : s.consecutiveFailures = 0)
    (hp : ∀ t ∈ PING_TARGETS, (ping t).1 = false)
    (hd : dnsTest "google.com" = true) :
    ∃ s', perform_connectivity_test ping dnsTest clock s =
        some (s', true, [false, false, false, true],
          [EventType.failure, EventType.failure, EventType.failure,
           EventType.outageStart, EventType.outageEnd,
           EventType.success]) ∧
      s'.outages = s.outages ++
        [OutageRecord.mk (clock 2) (clock 3) (clock 3 - clock 2) false] ∧
      s'.isOnline = true := by
  have hp1 : (ping "8.8.8.8").1 = false := hp _ (by simp [PING_TARGETS])
  have hp2 : (ping "1.1.1.1").1 = false := hp _ (by simp [PING_TARGETS])
  have hp3 : (ping "208.67.222.222").1 = false :=
    hp _ (by simp [PING_TARGETS])
  have e1 : record_check false (ping "8.8.8.8").2 (clock 0) s =
      some ({ s with
        totalChecks := s.totalChecks + 1
        failedChecks := s.failedChecks + 1
        consecutiveFailures := s.consecutiveFailures + 1 },
        [EventType.failure]) :=
    record_check_failure_below s (ping "8.8.8.8").2 (clock 0)
      (by rw [hcf]; decide)
  have e2 : record_check false (ping "1.1.1.1").2 (clock 1)
      { s with
        totalChecks := s.totalChecks + 1
        failedChecks := s.failedChecks + 1
        consecutiveFailures := s.consecutiveFailures + 1 } =
      some ({ s with
        totalChecks := s.totalChecks + 1 + 1
        failedChecks := s.failedChecks + 1 + 1
        consecutiveFailures := s.consecutiveFailures + 1 + 1 },
        [EventType.failure]) :=
    record_check_failure_below _ (ping "1.1.1.1").2 (clock 1)
      (show s.consecutiveFailures + 1 + 1 < FAILURE_THRESHOLD by
        rw [hcf]; decide)
  have e3 : record_check false (ping "208.67.222.222").2 (clock 2)
      { s with
        totalChecks := s.totalChecks + 1 + 1
        failedChecks := s.failedChecks + 1 + 1
        consecutiveFailures := s.consecutiveFailures + 1 + 1 } =
      some ({ s with
        totalChecks := s.totalChecks + 1 + 1 + 1
        failedChecks := s.failedChecks + 1 + 1 + 1
        consecutiveFailures := s.consecutiveFailures + 1 + 1 + 1
        isOnline := false
        currentOutageStart := some (clock 2) },
        [EventType.failure, EventType.outageStart]) :=
    record_check_failure_threshold _ (ping "208.67.222.222").2 (clock 2)
      (show s.isOnline = true from hon)
      (show FAILURE_THRESHOLD ≤ s.consecutiveFailures + 1 + 1 + 1 by
        rw [hcf]; decide)
  have e4 : record_check true none (clock 3)
      { s with
        totalChecks := s.totalChecks + 1 + 1 + 1
        failedChecks := s.failedChecks + 1 + 1 + 1
        consecutiveFailures := s.consecutiveFailures + 1 + 1 + 1
        isOnline := false
        currentOutageStart := some (clock 2) } =
      some ({ s with
        totalChecks := s.totalChecks + 1 + 1 + 1 + 1
        successfulChecks := s.successfulChecks + 1
        failedChecks := s.failedChecks + 1 + 1 + 1
        consecutiveFailures := 0
        isOnline := true
        currentOutageStart := none
        outages := s.outages ++
          [OutageRecord.mk (clock 2) (clock 3)
            (clock 3 - clock 2) false] },
        [EventType.outageEnd, EventType.success]) :=
    record_check_success_offline _ none (clock 3) (clock 2) rfl rfl
  refine ⟨{ s with
      totalChecks := s.totalChecks + 1 + 1 + 1 + 1
      successfulChecks := s.successfulChecks + 1
      failedChecks := s.failedChecks + 1 + 1 + 1
      consecutiveFailures := 0
      isOnline := true
      currentOutageStart := none
      outages := s.outages ++
        [OutageRecord.mk (clock 2) (clock 3)
          (clock 3 - clock 2) false] }, ?_, rfl, rfl⟩
  simp only [perform_connectivity_test, PING_TARGETS, DNS_TEST_DOMAINS,
    ping_round, dns_round, hp1, hp2, hp3, hd, e1, e2, e3, e4]
  simp [e4]

/-- Witness for C4: every ping fails, every DNS lookup succeeds, checks at
times 0,1,2,3. -/
theorem C4_round_transition_order_witness :
    (initState 0).isOnline = true ∧
    (initState 0).consecutiveFailures = 0 ∧
    (∃ s', perform_connectivity_test (fun _ => (false, none))
        (fun _ => true) (fun k => (k : ℚ)) (initState 0) =
      some (s', true, [false, false, false, true],
        [EventType.failure, EventType.failure, EventType.failure,
         EventType.outageStart, EventType.outageEnd,
         EventType.success]) ∧
      s'.outages = (initState 0).outages ++
        [OutageRecord.mk ((2:ℕ):ℚ) ((3:ℕ):ℚ)
          (((3:ℕ):ℚ) - ((2:ℕ):ℚ)) false] ∧
      s'.isOnline = true) :=
  ⟨rfl, rfl,
   C4_round_transition_order (fun _ => (false, none)) (fun _ => true)
     (fun k => (k : ℚ)) (initState 0) rfl rfl (by simp) rfl⟩

/-- C1: concrete evaluation of the code on an offline state (three failures
at times 1,2,3 from a start at 0, so the outage is open since time 3).
A first `generate_report` at time 10 does include exactly one synthetic
ongoing record with `end = 10` and `duration = 10 - 3 = 7` — but it appends
that record to the live `outages` list while leaving `is_online` and
`current_outage_start` untouched, so a second call at time 11 appends a
second overlapping ongoing record and counts the same open outage twice
(`total_outage_time = 7 + 8 = 15` instead of `11 - 3 = 8`). -/
theorem C1_repeated_report_duplicates_synthetic_record :
    run [Check.mk false none 1, Check.mk false none 2,
        Check.mk false none 3] (initState 0) =
      some (MonitorState.mk 0 false (some 3) 3 3 0 3 [] [],
        [EventType.failure, EventType.failure, EventType.failure,
         EventType.outageStart]) ∧
    ((generate_report 10
        (MonitorState.mk 0 false (some 3) 3 3 0 3 [] [])).2).outages =
      [OutageRecord.mk 3 10 7 true] ∧
    ((generate_report 10
        (MonitorState.mk 0 false (some 3) 3 3 0 3 [] [])).2).total_outage_time
      = 7 ∧
    ((generate_report 10
        (MonitorState.mk 0 false (some 3) 3 3 0 3 [] [])).1).outages =
      [OutageRecord.mk 3 10 7 true] ∧
    ((generate_report 10
        (MonitorState.mk 0 false (some 3) 3 3 0 3 [] [])).1).isOnline =
      false ∧
    (Prod.fst (generate_report 10
        (MonitorState.mk 0 false (some 3) 3 3 0 3 [] []))).currentOutageStart
      = some 3 ∧
    ((generate_report 11
        ((generate_report 10
          (MonitorState.mk 0 false (some 3) 3 3 0 3 [] [])).1)).2).outages =
      [OutageRecord.mk 3 10 7 true, OutageRecord.mk 3 11 8 true] ∧
    (Prod.snd (generate_report 11
        ((generate_report 10
          (MonitorState.mk 0 false (some 3) 3 3 0 3 [] [])).1))).total_outage_time
      = 15 := by
  refine ⟨by decide, ?_, ?_, ?_, by decide, by decide, ?_, ?_⟩ <;>
    norm_num [generate_report, sumDur]
